import Mathlib

set_option maxRecDepth 8000

/-!
# Verification of the DNS server core (`src/main.rs`)

A shallow embedding of the DNS wire codec and the iterative resolver of the
repository, together with theorems settling the specification claims.

Modelling conventions:
* Rust `u8`/`u16`/`u32` values are `Nat`s; every `as uN` cast in the source is
  rendered as an explicit `% 2^N` (or is dropped when the value is already
  below the bound by construction).
* Rust `Result` values are rendered by `RRes`: `ok` for `Ok`, `err` for an
  `anyhow!` error carrying the source's message string, and `panicked` for a
  Rust panic (the source indexes `Vec`s without bounds checks, so an
  out-of-range access panics rather than returning `Err`).
* Rust `String`s (domain names) are their UTF-8 byte sequences, `List Nat`.
  `str::split('.')` is byte-level splitting on 46 (valid because `'.'` is a
  single UTF-8 byte), and `String::to_lowercase` is modelled on the ASCII
  range (`A`–`Z` ↦ `a`–`z`), which coincides with Rust on ASCII input.
* `&mut self` methods take and return the state explicitly.
-/

/-- Result of a Rust function in the source: `Ok`, `Err(anyhow!(--))`, or a
panic (the source's buffer accesses index without bounds checks). -/
inductive RRes (α : Type) where
  | ok : α → RRes α
  | err : String → RRes α
  | panicked : RRes α

deriving DecidableEq, Repr

/-- Sequencing of fallible source operations (the Rust `?` operator). -/
def RRes.bind {α β : Type} : RRes α → (α → RRes β) → RRes β
  | .ok a, f => f a
  | .err e, _ => .err e
  | .panicked, _ => .panicked

@[simp] theorem RRes.bind_ok {α β : Type} (a : α) (f : α → RRes β) :
    RRes.bind (.ok a) f = f a := rfl

@[simp] theorem RRes.bind_err {α β : Type} (e : String) (f : α → RRes β) :
    RRes.bind (.err e) f = .err e := rfl

@[simp] theorem RRes.bind_panicked {α β : Type} (f : α → RRes β) :
    RRes.bind .panicked f = .panicked := rfl

/-- `const BUF_LEN: usize = 2048;` -/
def BUF_LEN : Nat := 2048

/-- `pub enum ResultCode` from the source. -/
inductive ResultCode where
  | NOERROR
  | FORMERR
  | SERVFAIL
  | NXDOMAIN
  | NOTIMP
  | REFUSED

deriving DecidableEq, Repr

/-- `ResultCode::from` — the source's `match` rendered as an `if` chain
(`0 | _ => NOERROR`). -/
def ResultCode.from (num : Nat) : ResultCode :=
  if num = 1 then .FORMERR
  else if num = 2 then .SERVFAIL
  else if num = 3 then .NXDOMAIN
  else if num = 4 then .NOTIMP
  else if num = 5 then .REFUSED
  else .NOERROR

/-- `pub enum QueryType` from the source. -/
inductive QueryType where
  | UNKNOWN : Nat → QueryType
  | A
  | NS
  | CNAME
  | MX
  | AAAA

deriving DecidableEq, Repr

/-- `QueryType::to_num`. -/
def QueryType.to_num : QueryType → Nat
  | .UNKNOWN x => x
  | .A => 1
  | .NS => 2
  | .CNAME => 5
  | .MX => 15
  | .AAAA => 28

/-- `QueryType::from_num` — the source's `match` rendered as an `if` chain. -/
def QueryType.from_num (num : Nat) : QueryType :=
  if num = 1 then .A
  else if num = 2 then .NS
  else if num = 5 then .CNAME
  else if num = 15 then .MX
  else if num = 28 then .AAAA
  else .UNKNOWN num

/-- `pub struct BytePacketBuffer { buf: Vec<u8>, pos: usize }`.  The byte
vector is a list of naturals below 256. -/
structure BytePacketBuffer where
  buf : List Nat
  pos : Nat

deriving DecidableEq, Repr

namespace BytePacketBuffer

/-- `BytePacketBuffer::new()` — a zeroed buffer of `BUF_LEN` bytes. -/
def new : BytePacketBuffer := { buf := List.replicate BUF_LEN 0, pos := 0 }

/-- `fn step(&mut self, steps: usize)` — unchecked cursor advance. -/
def step (b : BytePacketBuffer) (steps : Nat) : BytePacketBuffer :=
  { b with pos := b.pos + steps }

/-- `fn seek(&mut self, pos: usize)` — unchecked absolute cursor move. -/
def seek (b : BytePacketBuffer) (pos : Nat) : BytePacketBuffer :=
  { b with pos := pos }

/-- `fn read(&mut self) -> Result<u8>`: `self.buf[self.pos]` panics when the
cursor is outside the vector; otherwise the byte is returned in `Ok` and the
cursor advances.  The `% 256` reflects the `u8` element type. -/
def read (b : BytePacketBuffer) : RRes (Nat × BytePacketBuffer) :=
  if b.pos < b.buf.length then
    .ok (b.buf.getD b.pos 0 % 256, { b with pos := b.pos + 1 })
  else .panicked

/-- `fn get(&self, pos: usize) -> Result<u8>`: `self.buf[pos]`, a panic when
out of range, never an `Err`. -/
def get (b : BytePacketBuffer) (pos : Nat) : RRes Nat :=
  if pos < b.buf.length then .ok (b.buf.getD pos 0 % 256) else .panicked

/-- `fn get_range(&self, start: usize, len: usize) -> Result<&[u8]>`:
`&self.buf[start..start + len]` panics when the slice exceeds the vector. -/
def get_range (b : BytePacketBuffer) (start len : Nat) : RRes (List Nat) :=
  if start + len ≤ b.buf.length then
    .ok (((b.buf.drop start).take len).map (· % 256))
  else .panicked

/-- `fn read_u16(&mut self) -> Result<u16>` — two bytes, MSB first. -/
def read_u16 (b : BytePacketBuffer) : RRes (Nat × BytePacketBuffer) :=
  RRes.bind b.read fun (hi, b1) =>
  RRes.bind b1.read fun (lo, b2) =>
  .ok ((hi <<< 8) ||| lo, b2)

/-- `fn read_u32(&mut self) -> Result<u32>` — two `u16`s, MSB first. -/
def read_u32 (b : BytePacketBuffer) : RRes (Nat × BytePacketBuffer) :=
  RRes.bind b.read_u16 fun (hi, b1) =>
  RRes.bind b1.read_u16 fun (lo, b2) =>
  .ok ((hi <<< 16) ||| lo, b2)

/-- `fn write(&mut self, val: u8) -> Result<()>`: `self.buf[self.pos] = val`
panics past the end, otherwise stores the byte and advances.  The `% 256`
reflects the `u8` parameter type. -/
def write (b : BytePacketBuffer) (val : Nat) : RRes BytePacketBuffer :=
  if b.pos < b.buf.length then
    .ok { buf := b.buf.set b.pos (val % 256), pos := b.pos + 1 }
  else .panicked

/-- `fn write_u8(&mut self, val: u8) -> Result<()>` — delegates to `write`. -/
def write_u8 (b : BytePacketBuffer) (val : Nat) : RRes BytePacketBuffer :=
  b.write val

/-- `fn write_u16(&mut self, val: u16) -> Result<()>` — writes `(val >> 8) as
u8` then `(val & 0xFF) as u8`. -/
def write_u16 (b : BytePacketBuffer) (val : Nat) : RRes BytePacketBuffer :=
  RRes.bind (b.write ((val % 65536) >>> 8)) fun b1 =>
  b1.write ((val % 65536) &&& 0xFF)

/-- `fn write_u32(&mut self, val: u32) -> Result<()>` — writes `(val >> 16) as
u16` then `(val & 0xFF) as u16`.  The second half is the source's text: the
low mask is `0xFF`, not `0xFFFF`. -/
def write_u32 (b : BytePacketBuffer) (val : Nat) : RRes BytePacketBuffer :=
  RRes.bind (b.write_u16 ((val % 4294967296) >>> 16)) fun b1 =>
  b1.write_u16 ((val % 4294967296) &&& 0xFF)

/-- `fn set(&mut self, pos: usize, val: u8)` — `self.buf[pos] = val`, a panic
when out of range (the Rust signature returns `()`; we surface the panic). -/
def set (b : BytePacketBuffer) (pos val : Nat) : RRes BytePacketBuffer :=
  if pos < b.buf.length then
    .ok { b with buf := b.buf.set pos (val % 256) }
  else .panicked

/-- `fn set_u16(&mut self, pos: usize, val: u16)` — stores
`(val << 8) as u8` (a `u16` shift then a truncating cast) at `pos` and
`(val & 0xFF) as u8` at `pos + 1`, exactly as the source writes it. -/
def set_u16 (b : BytePacketBuffer) (pos val : Nat) : RRes BytePacketBuffer :=
  RRes.bind (b.set pos ((((val % 65536) <<< 8) % 65536) % 256)) fun b1 =>
  b1.set (pos + 1) ((val % 65536) &&& 0xFF)

end BytePacketBuffer

/-- ASCII lowercasing of one byte, the action of `String::to_lowercase` on
ASCII text (`from_utf8_lossy` is the identity on ASCII). -/
def asciiLower (b : Nat) : Nat :=
  if 65 ≤ b ∧ b ≤ 90 then b + 32 else b

/-- Byte-level `str::split('.')`: splitting the UTF-8 bytes on 46.  Splitting
the empty string yields one empty piece, as in Rust. -/
def splitOnDot : List Nat → List (List Nat)
  | [] => [[]]
  | b :: rest =>
    if b = 46 then [] :: splitOnDot rest
    else
      match splitOnDot rest with
      | l :: ls => (b :: l) :: ls
      | [] => [[b]]

/-- A zeroed buffer of an arbitrary size, used to run the codec on concrete
inputs (the buffer operations are length-generic; `new` is `zeroBuf BUF_LEN`). -/
def zeroBuf (n : Nat) : BytePacketBuffer := { buf := List.replicate n 0, pos := 0 }

/-- The body of the `loop` in `fn read_qname`, with an explicit fuel so the
function is structurally recursive (`none` means the fuel ran out;
`qnameLoopF_ne_none` shows the fuel used by `read_qname` never does, which is
the loop's termination).  State, in source order: `pos` (the local scan
position), `jumped`, `jumps_performed`, `delim`, `outstr` (the accumulator)
and the buffer cursor `self.pos` (only touched by the two `seek` calls).
The in-bounds tests reproduce `self.get`, `self.get_range` panicking on an
out-of-range index. -/
def qnameLoopF (buf : List Nat) :
    Nat → Nat → Bool → Nat → List Nat → List Nat → Nat →
    Option (RRes (List Nat × Nat))
  | 0, _, _, _, _, _, _ => none
  | fuel + 1, pos, jumped, jumps, delim, outstr, cursor =>
    if jumps > 5 then some (.err "Limit of 5 jumps exceeded")
    else if pos < buf.length then
      let len := buf.getD pos 0 % 256
      if len &&& 0xC0 = 0xC0 then
        let cursor1 := if jumped then cursor else pos + 2
        if pos + 1 < buf.length then
          let b2 := buf.getD (pos + 1) 0 % 256
          qnameLoopF buf fuel (((len ^^^ 0xC0) <<< 8) ||| b2) true (jumps + 1)
            delim outstr cursor1
        else some .panicked
      else if len = 0 then some (.ok (outstr, if jumped then cursor else pos + 1))
      else if pos + 1 + len ≤ buf.length then
        qnameLoopF buf fuel (pos + 1 + len) jumped jumps [46]
          (outstr ++ delim ++ ((buf.drop (pos + 1)).take len).map asciiLower)
          cursor
      else some .panicked
    else some .panicked

/-- `fn read_qname(&mut self, outstr: &mut String) -> Result<()>`.  The
`none` branch is unreachable: the supplied fuel satisfies
`qnameLoopF_ne_none` for every state. -/
def BytePacketBuffer.read_qname (b : BytePacketBuffer) (outstr : List Nat) :
    RRes (List Nat × BytePacketBuffer) :=
  match qnameLoopF b.buf (7 * (b.buf.length + 2) + 1) b.pos false 0 [] outstr b.pos with
  | some (.ok (acc, cur)) => .ok (acc, { b with pos := cur })
  | some (.err e) => .err e
  | some .panicked => .panicked
  | none => .panicked

/-- The byte-emitting inner loop of `write_qname`
(`for b in label.as_bytes() { self.write_u8(*b)?; }`) and of the A-record
octet loop. -/
def writeBytes (b : BytePacketBuffer) : List Nat → RRes BytePacketBuffer
  | [] => .ok b
  | v :: rest =>
    RRes.bind (b.write_u8 v) fun b1 => writeBytes b1 rest

/-- The label loop of `write_qname`: length byte (≤ 0x3f, else the source's
`Err`), then the label bytes. -/
def writeLabels (b : BytePacketBuffer) : List (List Nat) → RRes BytePacketBuffer
  | [] => .ok b
  | label :: rest =>
    if label.length > 0x3f then .err "Single label exceeds 63 characters"
    else
      RRes.bind (b.write_u8 label.length) fun b1 =>
      RRes.bind (writeBytes b1 label) fun b2 =>
      writeLabels b2 rest

/-- `fn write_qname(&mut self, qname: &str) -> Result<()>` — length-prefixed
labels split on `'.'`, then a zero terminator. -/
def BytePacketBuffer.write_qname (b : BytePacketBuffer) (qname : List Nat) :
    RRes BytePacketBuffer :=
  RRes.bind (writeLabels b (splitOnDot qname)) fun b1 => b1.write_u8 0

/-- `pub struct DnsHeader` — one field per source field, in source order. -/
structure DnsHeader where
  id : Nat
  recursion_desired : Bool
  truncated_message : Bool
  authoritative_answer : Bool
  opcode : Nat
  response : Bool
  rescode : ResultCode
  checking_disabled : Bool
  authed_data : Bool
  z : Bool
  recursion_available : Bool
  questions : Nat
  answers : Nat
  authoritative_entries : Nat
  resource_entries : Nat

deriving DecidableEq, Repr

/-- `DnsHeader::new()` / `Default for DnsHeader`. -/
def DnsHeader.new : DnsHeader :=
  { id := 0, recursion_desired := false, truncated_message := false,
    authoritative_answer := false, opcode := 0, response := false,
    rescode := .NOERROR, checking_disabled := false, authed_data := false,
    z := false, recursion_available := false, questions := 0, answers := 0,
    authoritative_entries := 0, resource_entries := 0 }

/-- The first flag byte exactly as `DnsHeader::write` composes it:
`rd | tc<<1 | aa<<2 | opcode<<3 | response<<7` (the `u8` shift of `opcode`
wraps mod 256). -/
def DnsHeader.byteA (h : DnsHeader) : Nat :=
  (cond h.recursion_desired 1 0) |||
  ((cond h.truncated_message 1 0) <<< 1) |||
  ((cond h.authoritative_answer 1 0) <<< 2) |||
  ((h.opcode <<< 3) % 256) |||
  ((cond h.response 1 0) <<< 7)

/-- The second flag byte exactly as `DnsHeader::write` composes it:
`response | cd<<4 | ad<<5 | z<<6 | ra<<7` — note the low nibble holds the
`response` flag and `rescode` is never written. -/
def DnsHeader.byteB (h : DnsHeader) : Nat :=
  (cond h.response 1 0) |||
  ((cond h.checking_disabled 1 0) <<< 4) |||
  ((cond h.authed_data 1 0) <<< 5) |||
  ((cond h.z 1 0) <<< 6) |||
  ((cond h.recursion_available 1 0) <<< 7)

/-- `DnsHeader::read` — note the source never assigns
`recursion_available`, so the input header's value persists. -/
def DnsHeader.read (h : DnsHeader) (buffer : BytePacketBuffer) :
    RRes (DnsHeader × BytePacketBuffer) :=
  RRes.bind buffer.read_u16 fun (id, b1) =>
  RRes.bind b1.read_u16 fun (flags, b2) =>
  let a := (flags >>> 8) % 256
  let b := flags &&& 0xFF
  RRes.bind b2.read_u16 fun (questions, b3) =>
  RRes.bind b3.read_u16 fun (answers, b4) =>
  RRes.bind b4.read_u16 fun (authoritative_entries, b5) =>
  RRes.bind b5.read_u16 fun (resource_entries, b6) =>
  .ok ({ h with
          id := id,
          recursion_desired := decide (0 < a &&& (1 <<< 0)),
          truncated_message := decide (0 < a &&& (1 <<< 1)),
          authoritative_answer := decide (0 < a &&& (1 <<< 2)),
          opcode := (a >>> 3) &&& 0x0F,
          response := decide (0 < a &&& (1 <<< 7)),
          rescode := ResultCode.from (b &&& 0x0F),
          checking_disabled := decide (0 < b &&& (1 <<< 4)),
          authed_data := decide (0 < b &&& (1 <<< 5)),
          z := decide (0 < b &&& (1 <<< 6)),
          questions := questions,
          answers := answers,
          authoritative_entries := authoritative_entries,
          resource_entries := resource_entries }, b6)

/-- `DnsHeader::write` — returns `initial_pos`, the absolute position of the
first flag byte, for the later TC back-patch. -/
def DnsHeader.write (h : DnsHeader) (buffer : BytePacketBuffer) :
    RRes (Nat × BytePacketBuffer) :=
  RRes.bind (buffer.write_u16 h.id) fun b1 =>
  let initial_pos := b1.pos
  RRes.bind (b1.write_u8 h.byteA) fun b2 =>
  RRes.bind (b2.write_u8 h.byteB) fun b3 =>
  RRes.bind (b3.write_u16 h.questions) fun b4 =>
  RRes.bind (b4.write_u16 h.answers) fun b5 =>
  RRes.bind (b5.write_u16 h.authoritative_entries) fun b6 =>
  RRes.bind (b6.write_u16 h.resource_entries) fun b7 =>
  .ok (initial_pos, b7)

/-- Encode a header into a zeroed buffer and decode it back from position 0
into a fresh (`DnsHeader::new`) header, the source's own decode-after-encode
composition. -/
def headerRoundTrip (h : DnsHeader) : RRes (DnsHeader × BytePacketBuffer) :=
  match DnsHeader.write h (zeroBuf 16) with
  | .ok (_, b) => DnsHeader.read DnsHeader.new { b with pos := 0 }
  | .err e => .err e
  | .panicked => .panicked

/-- The decoded `rescode` of a header round trip, when it succeeds. -/
def rtRescode (r : RRes (DnsHeader × BytePacketBuffer)) : Option ResultCode :=
  match r with
  | .ok (h, _) => some h.rescode
  | _ => none

/-- `std::net::Ipv4Addr` — four octets. -/
structure Ipv4Addr where
  o1 : Nat
  o2 : Nat
  o3 : Nat
  o4 : Nat

deriving DecidableEq, Repr

/-- `Ipv4Addr::octets()`. -/
def Ipv4Addr.octets (a : Ipv4Addr) : List Nat := [a.o1, a.o2, a.o3, a.o4]

/-- `std::net::Ipv6Addr` — eight 16-bit segments. -/
structure Ipv6Addr where
  s1 : Nat
  s2 : Nat
  s3 : Nat
  s4 : Nat
  s5 : Nat
  s6 : Nat
  s7 : Nat
  s8 : Nat

deriving DecidableEq, Repr

/-- `Ipv6Addr::segments()`. -/
def Ipv6Addr.segments (a : Ipv6Addr) : List Nat :=
  [a.s1, a.s2, a.s3, a.s4, a.s5, a.s6, a.s7, a.s8]

/-- `pub enum DnsRecord` — fields in source order. -/
inductive DnsRecord where
  | UNKNOWN : (domain : List Nat) → (qtype : Nat) → (data_len : Nat) → (ttl : Nat) → DnsRecord
  | A : (domain : List Nat) → (addr : Ipv4Addr) → (ttl : Nat) → DnsRecord
  | NS : (domain : List Nat) → (host : List Nat) → (ttl : Nat) → DnsRecord
  | CNAME : (domain : List Nat) → (host : List Nat) → (ttl : Nat) → DnsRecord
  | MX : (domain : List Nat) → (priority : Nat) → (host : List Nat) → (ttl : Nat) → DnsRecord
  | AAAA : (domain : List Nat) → (addr : Ipv6Addr) → (ttl : Nat) → DnsRecord

deriving DecidableEq, Repr

/-- `pub struct DnsQuestion`. -/
structure DnsQuestion where
  name : List Nat
  qtype : QueryType

deriving DecidableEq, Repr

/-- `DnsQuestion::write`. -/
def DnsQuestion.write (q : DnsQuestion) (buffer : BytePacketBuffer) :
    RRes BytePacketBuffer :=
  RRes.bind (buffer.write_qname q.name) fun b1 =>
  RRes.bind (b1.write_u16 q.qtype.to_num) fun b2 =>
  b2.write_u16 1

/-- `DnsRecord::read` — shared prefix (qname, type, class, TTL, RDLENGTH),
then the per-type RDATA. -/
def DnsRecord.read (buffer : BytePacketBuffer) : RRes (DnsRecord × BytePacketBuffer) :=
  RRes.bind (buffer.read_qname []) fun (domain, b1) =>
  RRes.bind b1.read_u16 fun (qtype_num, b2) =>
  let qtype := QueryType.from_num qtype_num
  RRes.bind b2.read_u16 fun (_, b3) =>
  RRes.bind b3.read_u32 fun (ttl, b4) =>
  RRes.bind b4.read_u16 fun (data_len, b5) =>
  match qtype with
  | .A =>
    RRes.bind b5.read_u32 fun (raw_addr, b6) =>
    .ok (.A domain
          { o1 := (raw_addr >>> 24) &&& 0xFF, o2 := (raw_addr >>> 16) &&& 0xFF,
            o3 := (raw_addr >>> 8) &&& 0xFF, o4 := (raw_addr >>> 0) &&& 0xFF }
          ttl, b6)
  | .AAAA =>
    RRes.bind b5.read_u32 fun (raw_addr1, b6) =>
    RRes.bind b6.read_u32 fun (raw_addr2, b7) =>
    RRes.bind b7.read_u32 fun (raw_addr3, b8) =>
    RRes.bind b8.read_u32 fun (raw_addr4, b9) =>
    .ok (.AAAA domain
          { s1 := (raw_addr1 >>> 16) &&& 0xFFFF, s2 := (raw_addr1 >>> 0) &&& 0xFFFF,
            s3 := (raw_addr2 >>> 16) &&& 0xFFFF, s4 := (raw_addr2 >>> 0) &&& 0xFFFF,
            s5 := (raw_addr3 >>> 16) &&& 0xFFFF, s6 := (raw_addr3 >>> 0) &&& 0xFFFF,
            s7 := (raw_addr4 >>> 16) &&& 0xFFFF, s8 := (raw_addr4 >>> 0) &&& 0xFFFF }
          ttl, b9)
  | .NS =>
    RRes.bind (b5.read_qname []) fun (ns, b6) =>
    .ok (.NS domain ns ttl, b6)
  | .CNAME =>
    RRes.bind (b5.read_qname []) fun (host, b6) =>
    .ok (.CNAME domain host ttl, b6)
  | .MX =>
    RRes.bind b5.read_u16 fun (priority, b6) =>
    RRes.bind (b6.read_qname []) fun (mx, b7) =>
    .ok (.MX domain priority mx ttl, b7)
  | .UNKNOWN _ =>
    .ok (.UNKNOWN domain qtype_num data_len ttl, b5.step data_len)

/-- The segment-emitting loop of the AAAA arm
(`for oc in addr.segments() { buffer.write_u16(oc)?; }`). -/
def writeSegs (b : BytePacketBuffer) : List Nat → RRes BytePacketBuffer
  | [] => .ok b
  | v :: rest =>
    RRes.bind (b.write_u16 v) fun b1 => writeSegs b1 rest

/-- `DnsRecord::write_record` — the NS/CNAME body: prefix, a zero RDLENGTH
placeholder, the host qname, then a `set_u16` back-patch of the length. -/
def DnsRecord.write_record (buffer : BytePacketBuffer) (qtype : QueryType)
    (domain host : List Nat) (ttl : Nat) : RRes BytePacketBuffer :=
  RRes.bind (buffer.write_qname domain) fun b1 =>
  RRes.bind (b1.write_u16 qtype.to_num) fun b2 =>
  RRes.bind (b2.write_u16 1) fun b3 =>
  RRes.bind (b3.write_u32 ttl) fun b4 =>
  let pos := b4.pos
  RRes.bind (b4.write_u16 0) fun b5 =>
  RRes.bind (b5.write_qname host) fun b6 =>
  let size := b6.pos - (pos + 2)
  b6.set_u16 pos size

/-- `DnsRecord::write` — returns the emitted size `buffer.pos - start_pos`.
The AAAA arm is the source's text: it emits type code `QueryType::A.to_num()`
(1) and RDLENGTH 4, then the sixteen address bytes. -/
def DnsRecord.write (r : DnsRecord) (buffer : BytePacketBuffer) :
    RRes (Nat × BytePacketBuffer) :=
  let start_pos := buffer.pos
  match r with
  | .A domain addr ttl =>
    RRes.bind (buffer.write_qname domain) fun b1 =>
    RRes.bind (b1.write_u16 QueryType.A.to_num) fun b2 =>
    RRes.bind (b2.write_u16 1) fun b3 =>
    RRes.bind (b3.write_u32 ttl) fun b4 =>
    RRes.bind (b4.write_u16 4) fun b5 =>
    RRes.bind (writeBytes b5 addr.octets) fun b6 =>
    .ok (b6.pos - start_pos, b6)
  | .AAAA domain addr ttl =>
    RRes.bind (buffer.write_qname domain) fun b1 =>
    RRes.bind (b1.write_u16 QueryType.A.to_num) fun b2 =>
    RRes.bind (b2.write_u16 1) fun b3 =>
    RRes.bind (b3.write_u32 ttl) fun b4 =>
    RRes.bind (b4.write_u16 4) fun b5 =>
    RRes.bind (writeSegs b5 addr.segments) fun b6 =>
    .ok (b6.pos - start_pos, b6)
  | .NS domain host ttl =>
    RRes.bind (DnsRecord.write_record buffer .NS domain host ttl) fun b1 =>
    .ok (b1.pos - start_pos, b1)
  | .CNAME domain host ttl =>
    RRes.bind (DnsRecord.write_record buffer .CNAME domain host ttl) fun b1 =>
    .ok (b1.pos - start_pos, b1)
  | .MX domain priority host ttl =>
    RRes.bind (buffer.write_qname domain) fun b1 =>
    RRes.bind (b1.write_u16 QueryType.MX.to_num) fun b2 =>
    RRes.bind (b2.write_u16 1) fun b3 =>
    RRes.bind (b3.write_u32 ttl) fun b4 =>
    let pos := b4.pos
    RRes.bind (b4.write_u16 0) fun b5 =>
    RRes.bind (b5.write_u16 priority) fun b6 =>
    RRes.bind (b6.write_qname host) fun b7 =>
    let size := b7.pos - (pos + 2)
    RRes.bind (b7.set_u16 pos size) fun b8 =>
    .ok (b8.pos - start_pos, b8)
  | .UNKNOWN _ _ _ _ =>
    -- `println!("Skipping record…")`: nothing is written.
    .ok (buffer.pos - start_pos, buffer)

/-- Encode a record into a zeroed buffer and decode it back from position 0,
the source's own decode-after-encode composition. -/
def recordRoundTrip (r : DnsRecord) : RRes DnsRecord :=
  match DnsRecord.write r (zeroBuf 64) with
  | .ok (_, b) =>
    match DnsRecord.read { b with pos := 0 } with
    | .ok (r2, _) => .ok r2
    | .err e => .err e
    | .panicked => .panicked
  | .err e => .err e
  | .panicked => .panicked

/-- `pub struct DnsPacket`. -/
structure DnsPacket where
  header : DnsHeader
  questions : List DnsQuestion
  answers : List DnsRecord
  authorities : List DnsRecord
  resources : List DnsRecord

deriving DecidableEq, Repr

/-- `DnsPacket::new()` / `Default for DnsPacket`. -/
def DnsPacket.new : DnsPacket :=
  { header := DnsHeader.new, questions := [], answers := [],
    authorities := [], resources := [] }

/-- The question-section loop of `DnsPacket::write`. -/
def writeQuestions (b : BytePacketBuffer) : List DnsQuestion → RRes BytePacketBuffer
  | [] => .ok b
  | q :: rest =>
    RRes.bind (q.write b) fun b1 => writeQuestions b1 rest

/-- A record-section loop of `DnsPacket::write` (the returned size of each
`DnsRecord::write` is discarded, as in the source). -/
def writeRecords (b : BytePacketBuffer) : List DnsRecord → RRes BytePacketBuffer
  | [] => .ok b
  | r :: rest =>
    RRes.bind (r.write b) fun (_, b1) => writeRecords b1 rest

/-- `DnsPacket::write(&mut self, buffer, is_udp)` — counts are overwritten
from the section lengths, the sections are emitted, and when the result
exceeds 512 bytes on UDP, the TC bit is back-patched into the byte returned
by the header writer.  Returns the mutated packet and the buffer. -/
def DnsPacket.write (p : DnsPacket) (buffer : BytePacketBuffer) (is_udp : Bool) :
    RRes (DnsPacket × BytePacketBuffer) :=
  let hdr : DnsHeader :=
    { p.header with
        questions := p.questions.length % 65536,
        answers := p.answers.length % 65536,
        authoritative_entries := p.authorities.length % 65536,
        resource_entries := p.resources.length % 65536 }
  RRes.bind (hdr.write buffer) fun (header_pos, b1) =>
  RRes.bind (writeQuestions b1 p.questions) fun b2 =>
  RRes.bind (writeRecords b2 p.answers) fun b3 =>
  RRes.bind (writeRecords b3 p.authorities) fun b4 =>
  RRes.bind (writeRecords b4 p.resources) fun b5 =>
  let hdr2 : DnsHeader := { hdr with truncated_message := decide (b5.pos > 512) }
  if hdr2.truncated_message && is_udp then
    RRes.bind (b5.get header_pos) fun old_header =>
    RRes.bind (b5.set header_pos (old_header ||| ((cond hdr2.truncated_message 1 0) <<< 1)))
      fun b6 =>
    .ok ({ p with header := hdr2 }, b6)
  else
    .ok ({ p with header := hdr2 }, b5)

/-- `DnsPacket::get_random_a` — the first A answer's address. -/
def DnsPacket.get_random_a (p : DnsPacket) : Option Ipv4Addr :=
  p.answers.findSome? fun record =>
    match record with
    | .A _ addr _ => some addr
    | _ => none

/-- `DnsPacket::get_ns` — (domain, host) of the authority NS records whose
owner name is a suffix of `qname`. -/
def DnsPacket.get_ns (p : DnsPacket) (qname : List Nat) : List (List Nat × List Nat) :=
  (p.authorities.filterMap fun record =>
    match record with
    | .NS domain host _ => some (domain, host)
    | _ => none).filter fun pr => pr.1.isSuffixOf qname

/-- `DnsPacket::get_resolved_ns` — the first additional-section A record glued
to a matching NS target. -/
def DnsPacket.get_resolved_ns (p : DnsPacket) (qname : List Nat) : Option Ipv4Addr :=
  ((p.get_ns qname).flatMap fun pr =>
    p.resources.filterMap fun record =>
      match record with
      | .A domain addr _ => if domain = pr.2 then some addr else none
      | _ => none).head?

/-- `DnsPacket::get_unresolved_ns` — the first matching NS target name. -/
def DnsPacket.get_unresolved_ns (p : DnsPacket) (qname : List Nat) : Option (List Nat) :=
  ((p.get_ns qname).map fun pr => pr.2).head?

/-- `DnsPacket::get_cname` — the first CNAME answer, rebuilt by clone. -/
def DnsPacket.get_cname (p : DnsPacket) : Option DnsRecord :=
  p.answers.findSome? fun record =>
    match record with
    | .CNAME domain host ttl => some (.CNAME domain host ttl)
    | _ => none

/-- `DnsPacket::final_answers` — the A answers. -/
def DnsPacket.final_answers (p : DnsPacket) : List DnsRecord :=
  p.answers.filter fun ans =>
    match ans with
    | .A _ _ _ => true
    | _ => false

/-- `DnsPacket::merge` — append the response's answers and take its rcode. -/
def DnsPacket.merge (p : DnsPacket) (response : DnsPacket) : DnsPacket :=
  { p with
      answers := p.answers ++ response.answers,
      header := { p.header with rescode := response.header.rescode } }

/-- `*a.root-servers.net`, the hard-coded root. -/
def rootNs : Ipv4Addr := { o1 := 198, o2 := 41, o3 := 0, o4 := 4 }

/-- The body of `recursive_lookup`.  `net ns qname qtype` abstracts
`lookup(qname, qtype, (ns, 53), is_udp, cache)` — the network round-trip plus
cache, which is I/O and cannot be embedded; the claims quantify over it.  The
`fuel` counts loop iterations and recursive calls combined; the source has no
such bound, so `none` (fuel exhausted) for every fuel exhibits divergence. -/
def recLoop (net : Ipv4Addr → List Nat → QueryType → DnsPacket) :
    Nat → Ipv4Addr → List Nat → QueryType → DnsPacket → Option DnsPacket
  | 0, _, _, _, _ => none
  | fuel + 1, ns, qname, qtype, accumulated_response =>
    let response := net ns qname qtype
    if response.final_answers ≠ [] ∧ response.header.rescode = ResultCode.NOERROR then
      some (accumulated_response.merge response)
    else
      match response.get_cname with
      | some (DnsRecord.CNAME _ host _) =>
        if qtype = QueryType.CNAME then some accumulated_response
        else recLoop net fuel rootNs host QueryType.A (accumulated_response.merge response)
      | _ =>
        if response.header.rescode = ResultCode.NXDOMAIN then
          some (accumulated_response.merge response)
        else
          match response.get_resolved_ns qname with
          | some new_ns => recLoop net fuel new_ns qname qtype accumulated_response
          | none =>
            match response.get_unresolved_ns qname with
            | none => some (accumulated_response.merge response)
            | some new_ns_name =>
              match recLoop net fuel rootNs new_ns_name QueryType.A DnsPacket.new with
              | none => none
              | some recursive_response =>
                match recursive_response.get_random_a with
                | some new_ns => recLoop net fuel new_ns qname qtype accumulated_response
                | none => some (accumulated_response.merge recursive_response)

/-- `fn recursive_lookup(qname, qtype, is_udp, accumulated_response, cache)`:
starts the loop at the root server.  (`is_udp` and the cache live inside the
`net` oracle.) -/
def recursive_lookup (net : Ipv4Addr → List Nat → QueryType → DnsPacket)
    (fuel : Nat) (qname : List Nat) (qtype : QueryType)
    (accumulated_response : DnsPacket) : Option DnsPacket :=
  recLoop net fuel rootNs qname qtype accumulated_response

/-- A stub upstream whose every response is a single CNAME answer
`a → b` with rcode NOERROR. -/
def cnameNet : Ipv4Addr → List Nat → QueryType → DnsPacket := fun _ _ _ =>
  { DnsPacket.new with answers := [.CNAME [97] [98] 5] }

/-- A stub upstream whose every response delegates back to itself: an NS
authority record with an empty owner name (a suffix of every qname) and a
glue A record for its target, rcode NOERROR, no answers. -/
def loopNet : Ipv4Addr → List Nat → QueryType → DnsPacket := fun _ _ _ =>
  { DnsPacket.new with
      authorities := [.NS [] [110] 99],
      resources := [.A [110] { o1 := 5, o2 := 6, o3 := 7, o4 := 8 } 99] }

/-- The decoded header of a round trip, when it succeeds. -/
def rtHeader (r : RRes (DnsHeader × BytePacketBuffer)) : Option DnsHeader :=
  match r with
  | .ok (h, _) => some h
  | _ => none

/-- Write a `u32` into a zeroed buffer and read it back from position 0. -/
def u32RoundTrip (v : Nat) : RRes Nat :=
  match (zeroBuf 8).write_u32 v with
  | .ok b =>
    match ({ b with pos := 0 } : BytePacketBuffer).read_u32 with
    | .ok (x, _) => .ok x
    | .err e => .err e
    | .panicked => .panicked
  | .err e => .err e
  | .panicked => .panicked

/-- A buffer state whose cursor sits at the logical end. -/
def atEnd : BytePacketBuffer := { buf := [0, 0, 0, 0], pos := 4 }

/-- All cursor-driven writes only touch positions at or past the starting
cursor: the length is preserved, the cursor never moves backwards, and every
byte strictly below the starting cursor is untouched. -/
def WritesAhead (b b' : BytePacketBuffer) : Prop :=
  b'.buf.length = b.buf.length ∧ b.pos ≤ b'.pos ∧
    ∀ i, i < b.pos → b'.buf.getD i 0 = b.buf.getD i 0

/-- The TC bit of an emitted message: bit 1 of the byte at the byte-A
position of a packet written from cursor 0 (the header writer returns 2). -/
def tcBit (l : List Nat) : Bool := (l.getD 2 0).testBit 1

/-! ## Theorems

Supporting lemmas, sanity examples, and one theorem (with witness or
counterexample where applicable) per specification claim C1..C10. -/

example : splitOnDot [] = [[]] := by decide

example : splitOnDot [97, 46, 98] = [[97], [98]] := by decide

example : splitOnDot [97, 46] = [[97], []] := by decide

example : QueryType.from_num 28 = .AAAA := by decide

example : ((zeroBuf 4).write 7) ≠ .panicked := by decide

example : BytePacketBuffer.new = zeroBuf BUF_LEN := rfl

/-- The qname loop terminates: with fuel at least
`(6 - jumps) * (L + 2) + (L + 2 - pos) + 1` it never runs out.  Each label
step advances `pos` by at least two and each pointer step increases
`jumps_performed`, which is capped at six. -/
theorem qnameLoopF_ne_none (buf : List Nat) :
    ∀ (fuel pos : Nat) (jumped : Bool) (jumps : Nat) (delim outstr : List Nat)
      (cursor : Nat),
      (6 - jumps) * (buf.length + 2) + (buf.length + 2 - pos) + 1 ≤ fuel →
      qnameLoopF buf fuel pos jumped jumps delim outstr cursor ≠ none := by
  intro fuel
  induction fuel with
  | zero => intro pos jumped jumps delim outstr cursor hb; omega
  | succ f ih =>
    intro pos jumped jumps delim outstr cursor hb
    simp only [qnameLoopF]
    split
    · simp
    · split
      · split
        · split
          · -- pointer jump: `jumps` increases, so the head product shrinks
            apply ih
            have hj : jumps ≤ 5 := by omega
            have hkey : (6 - jumps) * (buf.length + 2)
                = (6 - (jumps + 1)) * (buf.length + 2) + (buf.length + 2) := by
              have h7 : 6 - jumps = (6 - (jumps + 1)) + 1 := by omega
              rw [h7, Nat.succ_mul]
            omega
          · simp
        · split
          · simp
          · split
            · -- label step: `pos` advances by `1 + len` with `len ≠ 0`
              apply ih
              have hpos : pos < buf.length := by assumption
              have hlen : ¬ buf.getD pos 0 % 256 = 0 := by assumption
              omega
            · simp
      · simp

example :
    (zeroBuf 8).write_qname [97, 46, 98] =
      .ok { buf := [1, 97, 1, 98, 0, 0, 0, 0], pos := 5 } := by decide

example :
    ((zeroBuf 8).write_qname [97, 46, 98]) ≠ .panicked := by decide

example :
    (match (zeroBuf 8).write_qname [97, 66] with
      | .ok b => ({ b with pos := 0 } : BytePacketBuffer).read_qname []
      | _ => .panicked) = .ok ([97, 98], { buf := [2, 97, 66, 0, 0, 0, 0, 0], pos := 4 }) := by
  decide

example : rtRescode (headerRoundTrip DnsHeader.new) = some .NOERROR := by decide

example :
    rtRescode (headerRoundTrip { DnsHeader.new with rescode := .FORMERR }) =
      some .NOERROR := by decide

example :
    rtRescode (headerRoundTrip { DnsHeader.new with response := true }) =
      some .FORMERR := by decide

example :
    recordRoundTrip (.A [97] { o1 := 1, o2 := 2, o3 := 3, o4 := 4 } 300) =
      .ok (.A [97] { o1 := 1, o2 := 2, o3 := 3, o4 := 4 } 44) := by decide

example :
    recordRoundTrip (.AAAA [97]
        { s1 := 0, s2 := 0, s3 := 0, s4 := 0, s5 := 0, s6 := 0, s7 := 0, s8 := 1 } 0) =
      .ok (.A [97] { o1 := 0, o2 := 0, o3 := 0, o4 := 0 } 0) := by decide

example :
    recordRoundTrip (.CNAME [97] [98] 7) = .ok (.CNAME [97] [98] 7) := by decide

example :
    recordRoundTrip (.MX [97] 10 [98] 7) = .ok (.MX [97] 10 [98] 7) := by decide

example :
    recursive_lookup cnameNet 1 [97] .CNAME DnsPacket.new = some DnsPacket.new := by
  decide

example :
    recursive_lookup cnameNet 2 [97] .A DnsPacket.new =
      recLoop cnameNet 1 rootNs [98] .A (DnsPacket.new.merge (cnameNet rootNs [97] .A)) := by
  decide

example : recursive_lookup loopNet 5 [113] .A DnsPacket.new = none := by decide

theorem getD_set_eq (l : List Nat) (p a d : Nat) (hp : p < l.length) :
    (l.set p a).getD p d = a := by
  induction l generalizing p with
  | nil => simp at hp
  | cons x xs ih =>
    cases p with
    | zero => rfl
    | succ n =>
      rw [List.set_cons_succ, List.getD_cons_succ]
      exact ih n (by simpa using hp)

theorem getD_set_ne (l : List Nat) (p q a d : Nat) (hne : p ≠ q) :
    (l.set p a).getD q d = l.getD q d := by
  induction l generalizing p q with
  | nil => rfl
  | cons x xs ih =>
    cases p with
    | zero =>
      cases q with
      | zero => exact absurd rfl hne
      | succ m => rfl
    | succ n =>
      cases q with
      | zero => rfl
      | succ m =>
        rw [List.set_cons_succ, List.getD_cons_succ, List.getD_cons_succ]
        exact ih n m fun h => hne (by rw [h])

/-- C4 counterexample: the claim fails as stated — `UNKNOWN(1)` maps through
`to_num` to 1, which `from_num` decodes to the named variant `A`, not back to
`UNKNOWN(1)`. -/
theorem c4_querytype_counterexample :
    QueryType.from_num (QueryType.to_num (QueryType.UNKNOWN 1)) ≠ QueryType.UNKNOWN 1 := by
  decide

/-- C4 (amended): `from_num (to_num x) = x` for every named variant and for
`UNKNOWN n` whenever `n` is not one of the assigned codes 1, 2, 5, 15, 28;
for an `UNKNOWN` carrying an assigned code the round trip lands on the named
variant instead. -/
theorem c4_querytype_roundtrip (x : QueryType)
    (h : ∀ n, x = QueryType.UNKNOWN n → n ≠ 1 ∧ n ≠ 2 ∧ n ≠ 5 ∧ n ≠ 15 ∧ n ≠ 28) :
    QueryType.from_num (QueryType.to_num x) = x := by
  cases x with
  | UNKNOWN n =>
    obtain ⟨h1, h2, h5, h15, h28⟩ := h n rfl
    simp [QueryType.to_num, QueryType.from_num, h1, h2, h5, h15, h28]
  | A => decide
  | NS => decide
  | CNAME => decide
  | MX => decide
  | AAAA => decide

/-- C4 witness: the amended round trip at the concrete value `UNKNOWN 7`. -/
theorem c4_querytype_witness :
    QueryType.from_num (QueryType.to_num (QueryType.UNKNOWN 7)) = QueryType.UNKNOWN 7 :=
  c4_querytype_roundtrip (QueryType.UNKNOWN 7) (by intro n h; cases h; decide)

/-- C10: `set_u16(pos, val)` stores 0 at `pos` (the source's
`(val << 8) as u8` always truncates to 0) and `val & 0xFF` at `pos + 1`, so
the patched pair decodes big-endian to `val mod 256`, which differs from
`val` whenever `val mod 2^16 ≥ 256`. -/
theorem c10_set_u16_stores_low_byte (b : BytePacketBuffer) (pos val : Nat)
    (b' : BytePacketBuffer) (hlt : pos + 1 < b.buf.length)
    (hw : b.set_u16 pos val = .ok b') :
    b'.buf.getD pos 0 = 0 ∧
    b'.buf.getD (pos + 1) 0 = val % 256 ∧
    ((b'.buf.getD pos 0) <<< 8) ||| (b'.buf.getD (pos + 1) 0) = val % 256 ∧
    (256 ≤ val % 65536 →
      ((b'.buf.getD pos 0) <<< 8) ||| (b'.buf.getD (pos + 1) 0) ≠ val % 65536) := by
  have hfirst : (((val % 65536) <<< 8) % 65536) % 256 % 256 = 0 := by
    rw [Nat.shiftLeft_eq]
    omega
  have hsecond : ((val % 65536) &&& 0xFF) % 256 = val % 256 := by
    rw [show (0xFF : Nat) = 2 ^ 8 - 1 by norm_num, Nat.and_pow_two_sub_one_eq_mod]
    omega
  unfold BytePacketBuffer.set_u16 BytePacketBuffer.set at hw
  rw [if_pos (by omega : pos < b.buf.length)] at hw
  rw [RRes.bind_ok] at hw
  rw [if_pos (by simpa using hlt)] at hw
  cases hw
  constructor
  · rw [getD_set_ne _ _ _ _ _ (by omega), getD_set_eq _ _ _ _ (by omega)]
    exact hfirst
  refine ⟨?_, ?_, ?_⟩
  · rw [getD_set_eq _ _ _ _ (by simpa using hlt)]
    exact hsecond
  · rw [getD_set_ne _ _ _ _ _ (by omega), getD_set_eq _ _ _ _ (by omega),
      getD_set_eq _ _ _ _ (by simpa using hlt), hfirst, hsecond]
    simp [Nat.zero_shiftLeft]
  · intro hge
    rw [getD_set_ne _ _ _ _ _ (by omega), getD_set_eq _ _ _ _ (by omega),
      getD_set_eq _ _ _ _ (by simpa using hlt), hfirst, hsecond]
    simp only [Nat.zero_shiftLeft, Nat.zero_or]
    omega

/-- C10 witness: patching value 300 at position 0 of a two-byte buffer
stores bytes 0 and 44, which decode to 44 = 300 mod 256 ≠ 300. -/
theorem c10_set_u16_witness :
    (0 + 1 < (([9, 9] : List Nat)).length) ∧
    (({ buf := [9, 9], pos := 0 } : BytePacketBuffer).set_u16 0 300 =
      .ok { buf := [0, 44], pos := 0 }) ∧
    (([0, 44] : List Nat).getD 0 0 = 0 ∧
     ([0, 44] : List Nat).getD 1 0 = 300 % 256 ∧
     ((([0, 44] : List Nat).getD 0 0) <<< 8) ||| (([0, 44] : List Nat).getD 1 0) = 300 % 256 ∧
     (256 ≤ 300 % 65536 →
       ((([0, 44] : List Nat).getD 0 0) <<< 8) ||| (([0, 44] : List Nat).getD 1 0) ≠ 300 % 65536)) :=
  ⟨by decide, by decide,
    c10_set_u16_stores_low_byte { buf := [9, 9], pos := 0 } 0 300
      { buf := [0, 44], pos := 0 } (by decide) (by decide)⟩

/-- C1: the header round trip fails on the code.  A header whose only
non-default field is `rescode = FORMERR` decodes back to the all-default
header (`rescode` is never emitted: byte B's low nibble carries `response`);
likewise `recursion_available` is written but never read back; and a header
with `response = true` decodes with `rescode = FORMERR` because the
`response` bit lands in the rcode nibble. -/
theorem c1_header_roundtrip_bug :
    rtHeader (headerRoundTrip { DnsHeader.new with rescode := ResultCode.FORMERR }) =
      some DnsHeader.new ∧
    ({ DnsHeader.new with rescode := ResultCode.FORMERR } : DnsHeader) ≠ DnsHeader.new ∧
    rtHeader (headerRoundTrip { DnsHeader.new with recursion_available := true }) =
      some DnsHeader.new ∧
    ({ DnsHeader.new with recursion_available := true } : DnsHeader) ≠ DnsHeader.new ∧
    rtRescode (headerRoundTrip { DnsHeader.new with response := true }) =
      some ResultCode.FORMERR := by
  decide

/-- C2: the record round trip fails on the code.  The encoded AAAA record
carries type code 1 (bytes 0,1 at the type offset) and RDLENGTH 4 (bytes 0,4),
so it decodes as an `A` record; and an `A` record with TTL 300 decodes with
TTL 44 because `write_u32` drops the TTL's middle bytes. -/
theorem c2_record_roundtrip_bug :
    recordRoundTrip (.AAAA [97]
        { s1 := 0, s2 := 0, s3 := 0, s4 := 0, s5 := 0, s6 := 0, s7 := 0, s8 := 1 } 0) =
      .ok (.A [97] { o1 := 0, o2 := 0, o3 := 0, o4 := 0 } 0) ∧
    (match DnsRecord.write (.AAAA [97]
        { s1 := 0, s2 := 0, s3 := 0, s4 := 0, s5 := 0, s6 := 0, s7 := 0, s8 := 1 } 0)
        (zeroBuf 64) with
      | .ok (_, b) => some (b.buf.getD 3 0, b.buf.getD 4 0, b.buf.getD 11 0, b.buf.getD 12 0)
      | _ => none) = some (0, 1, 0, 4) ∧
    recordRoundTrip (.A [97] { o1 := 1, o2 := 2, o3 := 3, o4 := 4 } 300) =
      .ok (.A [97] { o1 := 1, o2 := 2, o3 := 3, o4 := 4 } 44) := by
  decide

/-- C3: `write_u32` does not emit the full 32 bits — its low half is
`val & 0xFF`, so 256 is written as the four bytes 0,0,0,0 and reads back as 0,
and 0xFFFFFFFF reads back as 0xFFFF00FF. -/
theorem c3_write_u32_bug :
    (zeroBuf 4).write_u32 256 = .ok { buf := [0, 0, 0, 0], pos := 4 } ∧
    u32RoundTrip 256 = .ok 0 ∧
    u32RoundTrip 4294967295 = .ok 4294902015 := by
  decide

/-- C5: no packet-buffer operation returns an `OutOfBounds` `Err` when it
would cross the logical end — each one indexes the vector unchecked and
panics (`panicked`), so the error never reaches a caller as a `Result`. -/
theorem c5_bounds_bug :
    atEnd.read = .panicked ∧
    atEnd.read_u16 = .panicked ∧
    atEnd.read_u32 = .panicked ∧
    atEnd.get 4 = .panicked ∧
    atEnd.get_range 3 2 = .panicked ∧
    atEnd.write 7 = .panicked ∧
    atEnd.write_u16 7 = .panicked ∧
    atEnd.write_u32 7 = .panicked := by
  decide

/-- C7: the CNAME chase does not merge before returning when the query type
is CNAME.  Against an upstream whose response holds exactly one CNAME answer
(and no A answer), a CNAME query returns success with the accumulator
untouched — the CNAME answer is absent — while for any other query type the
response is merged and the resolver restarts from the root on the target with
`qtype = A`. -/
theorem c7_cname_chase_bug :
    (cnameNet rootNs [97] QueryType.CNAME).get_cname = some (.CNAME [97] [98] 5) ∧
    (cnameNet rootNs [97] QueryType.CNAME).final_answers = [] ∧
    recursive_lookup cnameNet 1 [97] QueryType.CNAME DnsPacket.new = some DnsPacket.new ∧
    DnsPacket.new.answers = [] ∧
    recursive_lookup cnameNet 2 [97] QueryType.A DnsPacket.new =
      recLoop cnameNet 1 rootNs [98] QueryType.A
        (DnsPacket.new.merge (cnameNet rootNs [97] QueryType.A)) := by
  decide

/-- Under the self-delegating upstream the loop never terminates: every
iteration finds glue pointing at 5.6.7.8 and continues, consuming one unit of
fuel, so no finite fuel suffices. -/
theorem recLoop_loopNet_none (fuel : Nat) :
    ∀ (ns : Ipv4Addr) (acc : DnsPacket),
      recLoop loopNet fuel ns [113] QueryType.A acc = none := by
  induction fuel with
  | zero => intro ns acc; rfl
  | succ f ih =>
    intro ns acc
    simp only [recLoop]
    norm_num [loopNet, DnsPacket.final_answers, DnsPacket.get_cname,
      DnsPacket.get_resolved_ns, DnsPacket.get_ns, DnsPacket.new, DnsHeader.new,
      List.filterMap, List.filter, List.findSome?]
    exact ih _ _

/-- C8: `recursive_lookup` does not bound its loop iterations or recursive
calls.  Against a self-delegating upstream, the run exhausts every fuel
budget (the fuel counts loop iterations plus recursive calls combined), so in
particular no bound of 16 — or any other constant — holds. -/
theorem c8_unbounded_recursion (fuel : Nat) (acc : DnsPacket) :
    recursive_lookup loopNet fuel [113] QueryType.A acc = none :=
  recLoop_loopNet_none fuel rootNs acc

/-- One iteration of the qname loop at a self-pointer: the pointer at `X`
sends the scan position back to `X` and increments `jumps_performed`; the
cursor moves past the pointer on the first jump only. -/
theorem qnameLoopF_self_ptr_step (buf : List Nat) (fuel X : Nat) (jumped : Bool)
    (jumps : Nat) (delim outstr : List Nat) (cursor : Nat)
    (hj : jumps ≤ 5) (hx : X + 1 < buf.length)
    (hc : (buf.getD X 0 % 256) &&& 0xC0 = 0xC0)
    (hoff : (((buf.getD X 0 % 256) ^^^ 0xC0) <<< 8) ||| (buf.getD (X + 1) 0 % 256) = X) :
    qnameLoopF buf (fuel + 1) X jumped jumps delim outstr cursor =
      qnameLoopF buf fuel X true (jumps + 1) delim outstr
        (if jumped then cursor else X + 2) := by
  simp only [qnameLoopF]
  rw [if_neg (by omega), if_pos (by omega : X < buf.length), if_pos hc,
    if_pos hx, hoff]

/-- Iterating `qnameLoopF_self_ptr_step`: starting `k` jumps below the limit
with at least `k + 1` fuel, a self-pointer drives the loop into the
`jumps_performed > 5` error. -/
theorem qnameLoopF_self_ptr_err (buf : List Nat) (X : Nat) (delim outstr : List Nat)
    (hx : X + 1 < buf.length)
    (hc : (buf.getD X 0 % 256) &&& 0xC0 = 0xC0)
    (hoff : (((buf.getD X 0 % 256) ^^^ 0xC0) <<< 8) ||| (buf.getD (X + 1) 0 % 256) = X) :
    ∀ (k fuel jumps : Nat) (jumped : Bool) (cursor : Nat),
      jumps = 6 - k → k ≤ 6 → k + 1 ≤ fuel →
      qnameLoopF buf fuel X jumped jumps delim outstr cursor =
        some (.err "Limit of 5 jumps exceeded") := by
  intro k
  induction k with
  | zero =>
    intro fuel jumps jumped cursor hj hk hf
    obtain ⟨f, rfl⟩ : ∃ f, fuel = f + 1 := ⟨fuel - 1, by omega⟩
    simp only [qnameLoopF]
    rw [if_pos (by omega)]
  | succ n ih =>
    intro fuel jumps jumped cursor hj hk hf
    obtain ⟨f, rfl⟩ : ∃ f, fuel = f + 1 := ⟨fuel - 1, by omega⟩
    rw [qnameLoopF_self_ptr_step buf f X jumped jumps delim outstr cursor
      (by omega) hx hc hoff]
    exact ih f (jumps + 1) true _ (by omega) (by omega) (by omega)

/-- C6: the name-loop defense.  For every buffer holding a compression
pointer at the cursor position `X` whose 14-bit offset points back to `X`
itself, `read_qname` returns the jump-limit `Err` (the source's `NameLoop`
error, `anyhow!("Limit of 5 jumps exceeded")`) instead of looping: the loop
counts pointer jumps and refuses once the count exceeds 5.  Termination on
every input is `qnameLoopF_ne_none`: the fuelled loop body never exhausts the
fuel `read_qname` supplies. -/
theorem c6_name_loop_defense (b : BytePacketBuffer) (outstr : List Nat) (X : Nat)
    (hx : X + 1 < b.buf.length) (hpos : b.pos = X)
    (hc : (b.buf.getD X 0 % 256) &&& 0xC0 = 0xC0)
    (hoff : (((b.buf.getD X 0 % 256) ^^^ 0xC0) <<< 8) ||| (b.buf.getD (X + 1) 0 % 256) = X) :
    b.read_qname outstr = .err "Limit of 5 jumps exceeded" := by
  unfold BytePacketBuffer.read_qname
  rw [hpos]
  rw [qnameLoopF_self_ptr_err b.buf X [] outstr hx hc hoff 6
    (7 * (b.buf.length + 2) + 1) 0 false X rfl (by omega) (by omega)]

/-- C6 witness: the two-byte buffer `C0 00` is a pointer at offset 0 pointing
to offset 0; decoding it fails with the jump-limit error. -/
theorem c6_name_loop_witness :
    (({ buf := [192, 0], pos := 0 } : BytePacketBuffer)).read_qname [] =
      .err "Limit of 5 jumps exceeded" :=
  c6_name_loop_defense { buf := [192, 0], pos := 0 } [] 0 (by decide) rfl
    (by decide) (by decide)

/-- Splitting a successful `?`-sequence into its two successful halves. -/
theorem bind_ok_elim {α β : Type} {x : RRes α} {f : α → RRes β} {r : β}
    (h : RRes.bind x f = .ok r) : ∃ a, x = .ok a ∧ f a = .ok r := by
  cases x with
  | ok a => exact ⟨a, rfl, h⟩
  | err e => exact (RRes.noConfusion h)
  | panicked => exact (RRes.noConfusion h)

theorem write_ok_elim {b : BytePacketBuffer} {v : Nat} {b' : BytePacketBuffer}
    (h : b.write v = .ok b') :
    b'.buf = b.buf.set b.pos (v % 256) ∧ b'.pos = b.pos + 1 ∧
      b.pos < b.buf.length := by
  unfold BytePacketBuffer.write at h
  split at h
  · cases h; exact ⟨rfl, rfl, by assumption⟩
  · exact (RRes.noConfusion h)

theorem write_u16_ok_elim {b : BytePacketBuffer} {v : Nat} {b' : BytePacketBuffer}
    (h : b.write_u16 v = .ok b') :
    b'.buf = (b.buf.set b.pos (((v % 65536) >>> 8) % 256)).set (b.pos + 1)
        (((v % 65536) &&& 0xFF) % 256) ∧
      b'.pos = b.pos + 2 ∧ b.pos + 1 < b.buf.length := by
  unfold BytePacketBuffer.write_u16 at h
  obtain ⟨b1, e1, e2⟩ := bind_ok_elim h
  obtain ⟨q1, q2, q3⟩ := write_ok_elim e1
  obtain ⟨r1, r2, r3⟩ := write_ok_elim e2
  rw [q1, q2] at r1 r3
  rw [List.length_set] at r3
  refine ⟨r1, by omega, r3⟩

theorem get_ok_elim {b : BytePacketBuffer} {p v : Nat}
    (h : b.get p = .ok v) : v = b.buf.getD p 0 % 256 ∧ p < b.buf.length := by
  unfold BytePacketBuffer.get at h
  split at h
  · cases h; exact ⟨rfl, by assumption⟩
  · exact (RRes.noConfusion h)

theorem set_ok_elim {b : BytePacketBuffer} {p v : Nat} {b' : BytePacketBuffer}
    (h : b.set p v = .ok b') :
    b'.buf = b.buf.set p (v % 256) ∧ b'.pos = b.pos ∧ p < b.buf.length := by
  unfold BytePacketBuffer.set at h
  split at h
  · cases h; exact ⟨rfl, rfl, by assumption⟩
  · exact (RRes.noConfusion h)

theorem writesAhead_refl (b : BytePacketBuffer) : WritesAhead b b :=
  ⟨rfl, Nat.le_refl _, fun _ _ => rfl⟩

theorem writesAhead_trans {a b c : BytePacketBuffer}
    (h1 : WritesAhead a b) (h2 : WritesAhead b c) : WritesAhead a c := by
  obtain ⟨l1, p1, g1⟩ := h1
  obtain ⟨l2, p2, g2⟩ := h2
  exact ⟨by omega, by omega, fun i hi => by rw [g2 i (by omega), g1 i hi]⟩

theorem writesAhead_write {b : BytePacketBuffer} {v : Nat} {b' : BytePacketBuffer}
    (h : b.write v = .ok b') : WritesAhead b b' := by
  obtain ⟨q1, q2, _⟩ := write_ok_elim h
  refine ⟨by rw [q1, List.length_set], by omega, fun i hi => ?_⟩
  rw [q1, getD_set_ne _ _ _ _ _ (by omega)]

theorem writesAhead_write_u16 {b : BytePacketBuffer} {v : Nat} {b' : BytePacketBuffer}
    (h : b.write_u16 v = .ok b') : WritesAhead b b' := by
  unfold BytePacketBuffer.write_u16 at h
  obtain ⟨b1, e1, e2⟩ := bind_ok_elim h
  exact writesAhead_trans (writesAhead_write e1) (writesAhead_write e2)

theorem writesAhead_write_u32 {b : BytePacketBuffer} {v : Nat} {b' : BytePacketBuffer}
    (h : b.write_u32 v = .ok b') : WritesAhead b b' := by
  unfold BytePacketBuffer.write_u32 at h
  obtain ⟨b1, e1, e2⟩ := bind_ok_elim h
  exact writesAhead_trans (writesAhead_write_u16 e1) (writesAhead_write_u16 e2)

theorem writesAhead_writeBytes :
    ∀ {l : List Nat} {b b' : BytePacketBuffer},
      writeBytes b l = .ok b' → WritesAhead b b' := by
  intro l
  induction l with
  | nil => intro b b' h; cases h; exact writesAhead_refl _
  | cons v rest ih =>
    intro b b' h
    unfold writeBytes at h
    obtain ⟨b1, e1, e2⟩ := bind_ok_elim h
    exact writesAhead_trans (writesAhead_write e1) (ih e2)

theorem writesAhead_writeSegs :
    ∀ {l : List Nat} {b b' : BytePacketBuffer},
      writeSegs b l = .ok b' → WritesAhead b b' := by
  intro l
  induction l with
  | nil => intro b b' h; cases h; exact writesAhead_refl _
  | cons v rest ih =>
    intro b b' h
    unfold writeSegs at h
    obtain ⟨b1, e1, e2⟩ := bind_ok_elim h
    exact writesAhead_trans (writesAhead_write_u16 e1) (ih e2)

theorem writesAhead_writeLabels :
    ∀ {ls : List (List Nat)} {b b' : BytePacketBuffer},
      writeLabels b ls = .ok b' → WritesAhead b b' := by
  intro ls
  induction ls with
  | nil => intro b b' h; cases h; exact writesAhead_refl _
  | cons label rest ih =>
    intro b b' h
    unfold writeLabels at h
    split at h
    · exact (RRes.noConfusion h)
    · obtain ⟨b1, e1, h1⟩ := bind_ok_elim h
      obtain ⟨b2, e2, h2⟩ := bind_ok_elim h1
      exact writesAhead_trans (writesAhead_write e1)
        (writesAhead_trans (writesAhead_writeBytes e2) (ih h2))

theorem writesAhead_write_qname {b : BytePacketBuffer} {q : List Nat}
    {b' : BytePacketBuffer} (h : b.write_qname q = .ok b') : WritesAhead b b' := by
  unfold BytePacketBuffer.write_qname at h
  obtain ⟨b1, e1, e2⟩ := bind_ok_elim h
  exact writesAhead_trans (writesAhead_writeLabels e1) (writesAhead_write e2)

theorem writesAhead_question_write {q : DnsQuestion} {b b' : BytePacketBuffer}
    (h : q.write b = .ok b') : WritesAhead b b' := by
  unfold DnsQuestion.write at h
  obtain ⟨b1, e1, h1⟩ := bind_ok_elim h
  obtain ⟨b2, e2, h2⟩ := bind_ok_elim h1
  exact writesAhead_trans (writesAhead_write_qname e1)
    (writesAhead_trans (writesAhead_write_u16 e2) (writesAhead_write_u16 h2))

theorem set_u16_ok_elim {b : BytePacketBuffer} {p v : Nat} {b' : BytePacketBuffer}
    (h : b.set_u16 p v = .ok b') :
    b'.pos = b.pos ∧ b'.buf.length = b.buf.length ∧
      ∀ i, i ≠ p → i ≠ p + 1 → b'.buf.getD i 0 = b.buf.getD i 0 := by
  unfold BytePacketBuffer.set_u16 at h
  obtain ⟨b1, e1, e2⟩ := bind_ok_elim h
  obtain ⟨q1, q2, _⟩ := set_ok_elim e1
  obtain ⟨r1, r2, _⟩ := set_ok_elim e2
  refine ⟨by omega, by rw [r1, q1]; simp, fun i hi1 hi2 => ?_⟩
  rw [r1, getD_set_ne _ _ _ _ _ fun hh => hi2 hh.symm, q1,
    getD_set_ne _ _ _ _ _ fun hh => hi1 hh.symm]

theorem writesAhead_write_record {b : BytePacketBuffer} {qt : QueryType}
    {dom host : List Nat} {ttl : Nat} {b' : BytePacketBuffer}
    (h : DnsRecord.write_record b qt dom host ttl = .ok b') : WritesAhead b b' := by
  unfold DnsRecord.write_record at h
  obtain ⟨b1, e1, h⟩ := bind_ok_elim h
  obtain ⟨b2, e2, h⟩ := bind_ok_elim h
  obtain ⟨b3, e3, h⟩ := bind_ok_elim h
  obtain ⟨b4, e4, h⟩ := bind_ok_elim h
  obtain ⟨b5, e5, h⟩ := bind_ok_elim h
  obtain ⟨b6, e6, h⟩ := bind_ok_elim h
  have w14 : WritesAhead b b4 :=
    writesAhead_trans (writesAhead_write_qname e1)
      (writesAhead_trans (writesAhead_write_u16 e2)
        (writesAhead_trans (writesAhead_write_u16 e3) (writesAhead_write_u32 e4)))
  have w46 : WritesAhead b4 b6 :=
    writesAhead_trans (writesAhead_write_u16 e5) (writesAhead_write_qname e6)
  obtain ⟨sp, sl, sg⟩ := set_u16_ok_elim h
  obtain ⟨l14, p14, g14⟩ := w14
  obtain ⟨l46, p46, g46⟩ := w46
  refine ⟨by omega, by omega, fun i hi => ?_⟩
  rw [sg i (by omega) (by omega), g46 i (by omega), g14 i hi]

theorem writesAhead_record_write {r : DnsRecord} {b : BytePacketBuffer} {n : Nat}
    {b' : BytePacketBuffer} (h : r.write b = .ok (n, b')) : WritesAhead b b' := by
  cases r with
  | UNKNOWN domain qtype data_len ttl =>
    unfold DnsRecord.write at h
    injection h with h
    injection h with h1 h2
    subst h2
    exact writesAhead_refl b
  | A domain addr ttl =>
    unfold DnsRecord.write at h
    obtain ⟨b1, e1, h⟩ := bind_ok_elim h
    obtain ⟨b2, e2, h⟩ := bind_ok_elim h
    obtain ⟨b3, e3, h⟩ := bind_ok_elim h
    obtain ⟨b4, e4, h⟩ := bind_ok_elim h
    obtain ⟨b5, e5, h⟩ := bind_ok_elim h
    obtain ⟨b6, e6, h⟩ := bind_ok_elim h
    injection h with h
    injection h with h1 h2
    subst h2
    exact writesAhead_trans (writesAhead_write_qname e1)
      (writesAhead_trans (writesAhead_write_u16 e2)
        (writesAhead_trans (writesAhead_write_u16 e3)
          (writesAhead_trans (writesAhead_write_u32 e4)
            (writesAhead_trans (writesAhead_write_u16 e5) (writesAhead_writeBytes e6)))))
  | AAAA domain addr ttl =>
    unfold DnsRecord.write at h
    obtain ⟨b1, e1, h⟩ := bind_ok_elim h
    obtain ⟨b2, e2, h⟩ := bind_ok_elim h
    obtain ⟨b3, e3, h⟩ := bind_ok_elim h
    obtain ⟨b4, e4, h⟩ := bind_ok_elim h
    obtain ⟨b5, e5, h⟩ := bind_ok_elim h
    obtain ⟨b6, e6, h⟩ := bind_ok_elim h
    injection h with h
    injection h with h1 h2
    subst h2
    exact writesAhead_trans (writesAhead_write_qname e1)
      (writesAhead_trans (writesAhead_write_u16 e2)
        (writesAhead_trans (writesAhead_write_u16 e3)
          (writesAhead_trans (writesAhead_write_u32 e4)
            (writesAhead_trans (writesAhead_write_u16 e5) (writesAhead_writeSegs e6)))))
  | NS domain host ttl =>
    unfold DnsRecord.write at h
    obtain ⟨b1, e1, h⟩ := bind_ok_elim h
    injection h with h
    injection h with h1 h2
    subst h2
    exact writesAhead_write_record e1
  | CNAME domain host ttl =>
    unfold DnsRecord.write at h
    obtain ⟨b1, e1, h⟩ := bind_ok_elim h
    injection h with h
    injection h with h1 h2
    subst h2
    exact writesAhead_write_record e1
  | MX domain priority host ttl =>
    unfold DnsRecord.write at h
    obtain ⟨b1, e1, h⟩ := bind_ok_elim h
    obtain ⟨b2, e2, h⟩ := bind_ok_elim h
    obtain ⟨b3, e3, h⟩ := bind_ok_elim h
    obtain ⟨b4, e4, h⟩ := bind_ok_elim h
    obtain ⟨b5, e5, h⟩ := bind_ok_elim h
    obtain ⟨b6, e6, h⟩ := bind_ok_elim h
    obtain ⟨b7, e7, h⟩ := bind_ok_elim h
    obtain ⟨b8, e8, h⟩ := bind_ok_elim h
    injection h with h
    injection h with h1 h2
    subst h2
    have w14 : WritesAhead b b4 :=
      writesAhead_trans (writesAhead_write_qname e1)
        (writesAhead_trans (writesAhead_write_u16 e2)
          (writesAhead_trans (writesAhead_write_u16 e3) (writesAhead_write_u32 e4)))
    have w47 : WritesAhead b4 b7 :=
      writesAhead_trans (writesAhead_write_u16 e5)
        (writesAhead_trans (writesAhead_write_u16 e6) (writesAhead_write_qname e7))
    obtain ⟨sp, sl, sg⟩ := set_u16_ok_elim e8
    obtain ⟨l14, p14, g14⟩ := w14
    obtain ⟨l47, p47, g47⟩ := w47
    refine ⟨by omega, by omega, fun i hi => ?_⟩
    rw [sg i (by omega) (by omega), g47 i (by omega), g14 i hi]

theorem writesAhead_writeQuestions :
    ∀ {qs : List DnsQuestion} {b b' : BytePacketBuffer},
      writeQuestions b qs = .ok b' → WritesAhead b b' := by
  intro qs
  induction qs with
  | nil => intro b b' h; cases h; exact writesAhead_refl _
  | cons q rest ih =>
    intro b b' h
    unfold writeQuestions at h
    obtain ⟨b1, e1, h1⟩ := bind_ok_elim h
    exact writesAhead_trans (writesAhead_question_write e1) (ih h1)

theorem writesAhead_writeRecords :
    ∀ {rs : List DnsRecord} {b b' : BytePacketBuffer},
      writeRecords b rs = .ok b' → WritesAhead b b' := by
  intro rs
  induction rs with
  | nil => intro b b' h; cases h; exact writesAhead_refl _
  | cons r rest ih =>
    intro b b' h
    unfold writeRecords at h
    obtain ⟨pr, e1, h1⟩ := bind_ok_elim h
    obtain ⟨n, b1⟩ := pr
    exact writesAhead_trans (writesAhead_record_write e1) (ih h1)

/-- Destructing a successful `DnsHeader::write` from cursor 0: it returns
byte-A position 2, leaves the cursor at 12, preserves the length, and stores
the first flag byte `byteA` at index 2. -/
theorem header_write_elim {hd : DnsHeader} {b0 : BytePacketBuffer} {hpos : Nat}
    {b1 : BytePacketBuffer} (h : DnsHeader.write hd b0 = .ok (hpos, b1))
    (h0 : b0.pos = 0) :
    hpos = 2 ∧ b1.pos = 12 ∧ b1.buf.length = b0.buf.length ∧
      b1.buf.getD 2 0 = hd.byteA % 256 := by
  unfold DnsHeader.write at h
  obtain ⟨bA, e1, h⟩ := bind_ok_elim h
  obtain ⟨bB, e2, h⟩ := bind_ok_elim h
  obtain ⟨bC, e3, h⟩ := bind_ok_elim h
  obtain ⟨b4, e4, h⟩ := bind_ok_elim h
  obtain ⟨b5, e5, h⟩ := bind_ok_elim h
  obtain ⟨b6, e6, h⟩ := bind_ok_elim h
  obtain ⟨b7, e7, h⟩ := bind_ok_elim h
  injection h with h
  injection h with hh1 hh2
  subst hh1
  subst hh2
  obtain ⟨u1b, u1p, u1l⟩ := write_u16_ok_elim e1
  obtain ⟨w2b, w2p, w2l⟩ := write_ok_elim e2
  obtain ⟨w3b, w3p, w3l⟩ := write_ok_elim e3
  obtain ⟨u4b, u4p, u4l⟩ := write_u16_ok_elim e4
  obtain ⟨u5b, u5p, u5l⟩ := write_u16_ok_elim e5
  obtain ⟨u6b, u6p, u6l⟩ := write_u16_ok_elim e6
  obtain ⟨u7b, u7p, u7l⟩ := write_u16_ok_elim e7
  have w47 : WritesAhead bC b7 :=
    writesAhead_trans (writesAhead_write_u16 e4)
      (writesAhead_trans (writesAhead_write_u16 e5)
        (writesAhead_trans (writesAhead_write_u16 e6) (writesAhead_write_u16 e7)))
  obtain ⟨l47, p47, g47⟩ := w47
  have hlenBA : bB.buf.length = bA.buf.length := by rw [w2b, List.length_set]
  have hlenCB : bC.buf.length = bB.buf.length := by rw [w3b, List.length_set]
  have hlenA0 : bA.buf.length = b0.buf.length := by rw [u1b]; simp
  refine ⟨by omega, by omega, by omega, ?_⟩
  have h2C : b7.buf.getD 2 0 = bC.buf.getD 2 0 := g47 2 (by omega)
  have h2B : bC.buf.getD 2 0 = bB.buf.getD 2 0 := by
    rw [w3b, getD_set_ne _ _ _ _ _ (by omega)]
  have hA2 : bA.pos = 2 := by omega
  have h2A : bB.buf.getD 2 0 = hd.byteA % 256 := by
    rw [w2b, hA2]
    exact getD_set_eq _ _ _ _ (by omega)
  rw [h2C, h2B, h2A]

/-- When the header's TC flag is clear, bit 1 of its first flag byte is
clear: every other flag is packed away from bit 1. -/
theorem byteA_testBit_one {hd : DnsHeader} (h : hd.truncated_message = false) :
    (hd.byteA % 256).testBit 1 = false := by
  have hop : ((hd.opcode <<< 3) % 256).testBit 1 = false := by
    rw [show (256 : Nat) = 2 ^ 8 by norm_num, Nat.testBit_mod_two_pow,
      Nat.testBit_shiftLeft]
    simp
  rw [show (256 : Nat) = 2 ^ 8 by norm_num, Nat.testBit_mod_two_pow]
  simp only [DnsHeader.byteA, h, Nat.testBit_or, Nat.testBit_shiftLeft, hop]
  cases hd.recursion_desired <;> cases hd.authoritative_answer <;>
    cases hd.response <;> decide

/-- C9 (amended): for every packet whose header TC flag is clear before
encoding — as holds for every packet the server itself builds — and every
starting buffer with cursor 0, a successful `DnsPacket::write` emits TC = 1
in the byte-A position (index 2) exactly when the serialization exceeds 512
bytes AND `is_udp` holds; otherwise (TCP, or at most 512 bytes) it emits
TC = 0. -/
theorem c9_tc_bit (p : DnsPacket) (udp : Bool) (outP : DnsPacket)
    (out b0 : BytePacketBuffer) (hp0 : b0.pos = 0)
    (htc : p.header.truncated_message = false)
    (hw : DnsPacket.write p b0 udp = .ok (outP, out)) :
    tcBit out.buf = (decide (out.pos > 512) && udp) := by
  unfold DnsPacket.write at hw
  obtain ⟨pr, e1, hw⟩ := bind_ok_elim hw
  obtain ⟨hpos, b1⟩ := pr
  obtain ⟨hh2, hp12, hlen1, hgd⟩ := header_write_elim e1 hp0
  subst hh2
  obtain ⟨b2, e2, hw⟩ := bind_ok_elim hw
  obtain ⟨b3, e3, hw⟩ := bind_ok_elim hw
  obtain ⟨b4, e4, hw⟩ := bind_ok_elim hw
  obtain ⟨b5, e5, hw⟩ := bind_ok_elim hw
  have w15 : WritesAhead b1 b5 :=
    writesAhead_trans (writesAhead_writeQuestions e2)
      (writesAhead_trans (writesAhead_writeRecords e3)
        (writesAhead_trans (writesAhead_writeRecords e4) (writesAhead_writeRecords e5)))
  obtain ⟨l15, p15, g15⟩ := w15
  have hgd5 : b5.buf.getD 2 0 = p.header.byteA % 256 := by
    rw [g15 2 (by omega), hgd]
    rfl
  dsimp only at hw
  split at hw
  · rename_i hcond
    obtain ⟨old, eg, hw⟩ := bind_ok_elim hw
    obtain ⟨b6, es, hw⟩ := bind_ok_elim hw
    injection hw with hw
    injection hw with hw1 hw2
    subst hw2
    obtain ⟨ogv, oglt⟩ := get_ok_elim eg
    obtain ⟨sb, sp, slt⟩ := set_ok_elim es
    have hc1 : decide (b5.pos > 512) = true ∧ udp = true := by simpa using hcond
    simp only [tcBit, sb, sp, hc1.1, hc1.2, Bool.cond_true, Bool.and_self]
    rw [getD_set_eq _ _ _ _ slt]
    rw [show (256 : Nat) = 2 ^ 8 by norm_num, Nat.testBit_mod_two_pow]
    simp [Nat.testBit_or]
    exact Or.inr (by decide)
  · rename_i hcond
    injection hw with hw
    injection hw with hw1 hw2
    subst hw2
    simp only [Bool.not_eq_true] at hcond
    rw [hcond]
    simp only [tcBit]
    rw [hgd5]
    exact byteA_testBit_one htc

/-- C9 counterexample: the claim as stated fails for a packet whose
`truncated_message` flag is already set before encoding.  Its 12-byte
serialization — far below 512 bytes, and over TCP (`is_udp = false`) — still
carries TC = 1, because `DnsHeader::write` emits the pre-existing flag. -/
theorem c9_tc_bit_counterexample :
    (match DnsPacket.write
        { DnsPacket.new with header := { DnsHeader.new with truncated_message := true } }
        (zeroBuf 16) false with
      | .ok (_, out) => some (tcBit out.buf, out.pos)
      | _ => none) = some (true, 12) ∧ 12 ≤ 512 := by
  constructor
  · decide
  · omega

/-- C9 witness: the amended theorem applied to the empty packet written into
a 16-byte zeroed buffer over TCP — 12 bytes emitted, TC bit clear. -/
theorem c9_tc_bit_witness :
    (zeroBuf 16).pos = 0 ∧
    DnsPacket.new.header.truncated_message = false ∧
    DnsPacket.write DnsPacket.new (zeroBuf 16) false =
      .ok (DnsPacket.new, { buf := List.replicate 16 0, pos := 12 }) ∧
    tcBit (List.replicate 16 0) = (decide (12 > 512) && false) :=
  ⟨rfl, rfl, by decide,
    c9_tc_bit DnsPacket.new false DnsPacket.new
      { buf := List.replicate 16 0, pos := 12 } (zeroBuf 16) rfl rfl (by decide)⟩
